import Mathlib

/-!
Verification of the argument codec of the pytc VS Code extension
(src/src/extension.ts).

The codec consists of two pure operations on the PytestConfig record:

* decoding (the parsing loop of getCurrentConfig, lines 111-143): a left
  fold over the persisted pytestArgs token list, classifying each token by
  exact match or prefix match and updating the corresponding field;
* encoding (the array-building part of updateWorkspaceConfig, lines
  156-224): a fixed sequence of conditional pushes, one per field.

JavaScript string primitives used by the source (String.prototype.startsWith
and String.prototype.split with a single-character separator) are modelled
below on the Lean side over the character list underlying a String, with the
same semantics: split cuts at every occurrence of the separator and keeps
empty segments, so that arg.split(sep)[1] is the segment strictly between
the first and second occurrence of the separator.

Optional TypeScript fields (tb?: string and friends) are modelled as
Option String with none for undefined/absent; boolean fields
(captureOutput?: boolean and friends) are modelled as Bool with false for
undefined, since the source only ever observes them by truthiness.
-/

/-- Model of JavaScript List-level prefix test: pattern against subject. -/
def charListStarts : List Char → List Char → Bool
  | [], _ => true
  | _ :: _, [] => false
  | a :: as, b :: bs => a == b && charListStarts as bs

/-- Model of JavaScript String.prototype.startsWith: s.startsWith(pat). -/
def jsStartsWith (s pat : String) : Bool :=
  charListStarts pat.data s.data

/-- Model of JavaScript String.prototype.split with a one-character
separator, on the underlying character list: cut at every occurrence of the
separator, keeping empty segments (so the result is never empty). -/
def splitCharList (sep : Char) : List Char → List (List Char)
  | [] => [[]]
  | c :: cs =>
    if c = sep then [] :: splitCharList sep cs
    else
      match splitCharList sep cs with
      | [] => [[c]]
      | l :: ls => (c :: l) :: ls

/-- Model of JavaScript s.split(sep) for a one-character separator. -/
def jsSplit (s : String) (sep : Char) : List String :=
  (splitCharList sep s.data).map String.mk

/-- The PytestConfig interface of extension.ts (lines 8-20), fields in
source order.  Absent optional fields are none; boolean fields default to
false (the source only tests them for truthiness). -/
structure PytestConfig where
  tb : Option String := none
  numprocesses : Option String := none
  verbosity : Option String := none
  captureOutput : Bool := false
  headed : Bool := false
  delve : Bool := false
  browser : Option String := none
  slowmo : Bool := false
  tracing : Option String := none
  video : Option String := none
  showlocals : Bool := false
deriving DecidableEq, Repr

/-- The body of the parsing loop of getCurrentConfig (lines 111-143): one
token updates at most one field.  Prefix branches store arg.split('=')[1],
the segment between the first and second '='. -/
def decodeStep (config : PytestConfig) (arg : String) : PytestConfig :=
  if jsStartsWith arg "--tb=" then
    { config with tb := (jsSplit arg '=').get? 1 }
  else if jsStartsWith arg "--numprocesses=" then
    { config with numprocesses := (jsSplit arg '=').get? 1 }
  else if arg == "-q" then
    { config with verbosity := some "quiet" }
  else if arg == "-v" then
    { config with verbosity := some "verbose" }
  else if arg == "-vv" then
    { config with verbosity := some "more-verbose" }
  else if arg == "-vvv" then
    { config with verbosity := some "very-verbose" }
  else if arg == "-s" then
    { config with captureOutput := true }
  else if arg == "--showlocals" then
    { config with showlocals := true }
  else if arg == "--headed" then
    { config with headed := true }
  else if arg == "--delve=1" then
    { config with delve := true }
  else if jsStartsWith arg "--browser=" then
    { config with browser := (jsSplit arg '=').get? 1 }
  else if arg == "--slowmo" then
    { config with slowmo := true }
  else if jsStartsWith arg "--tracing=" then
    { config with tracing := (jsSplit arg '=').get? 1 }
  else if jsStartsWith arg "--video=" then
    { config with video := (jsSplit arg '=').get? 1 }
  else config

/-- The codec half of getCurrentConfig (lines 100-146): fold the parsing
loop over the persisted pytestArgs list, starting from the fresh empty
config object. -/
def getCurrentConfig (pytestArgs : List String) : PytestConfig :=
  pytestArgs.foldl decodeStep {}

/-- Lines 158-161: push --tb=(value) when tb is truthy and not "none". -/
def pushTb (config : PytestConfig) (newArgs : List String) : List String :=
  match config.tb with
  | some tb => if tb != "" && tb != "none" then newArgs ++ ["--tb=" ++ tb] else newArgs
  | none => newArgs

/-- Lines 163-166: push --numprocesses=(value) when truthy and not "none". -/
def pushNumprocesses (config : PytestConfig) (newArgs : List String) : List String :=
  match config.numprocesses with
  | some np => if np != "" && np != "none" then newArgs ++ ["--numprocesses=" ++ np] else newArgs
  | none => newArgs

/-- Lines 168-184: when verbosity is truthy, push the flag selected by the
switch; an unrecognized value falls through the switch and pushes nothing. -/
def pushVerbosity (config : PytestConfig) (newArgs : List String) : List String :=
  match config.verbosity with
  | some v =>
    if v != "" then
      if v == "quiet" then newArgs ++ ["-q"]
      else if v == "verbose" then newArgs ++ ["-v"]
      else if v == "more-verbose" then newArgs ++ ["-vv"]
      else if v == "very-verbose" then newArgs ++ ["-vvv"]
      else newArgs
    else newArgs
  | none => newArgs

/-- Lines 186-189: push -s when captureOutput is truthy. -/
def pushCaptureOutput (config : PytestConfig) (newArgs : List String) : List String :=
  if config.captureOutput then newArgs ++ ["-s"] else newArgs

/-- Lines 191-194: push --showlocals when showlocals is truthy. -/
def pushShowlocals (config : PytestConfig) (newArgs : List String) : List String :=
  if config.showlocals then newArgs ++ ["--showlocals"] else newArgs

/-- Lines 196-199: push --headed when headed is truthy. -/
def pushHeaded (config : PytestConfig) (newArgs : List String) : List String :=
  if config.headed then newArgs ++ ["--headed"] else newArgs

/-- Lines 201-204: push --delve=1 when delve is truthy. -/
def pushDelve (config : PytestConfig) (newArgs : List String) : List String :=
  if config.delve then newArgs ++ ["--delve=1"] else newArgs

/-- Lines 206-209: push --browser=(value) when truthy and not "none". -/
def pushBrowser (config : PytestConfig) (newArgs : List String) : List String :=
  match config.browser with
  | some b => if b != "" && b != "none" then newArgs ++ ["--browser=" ++ b] else newArgs
  | none => newArgs

/-- Lines 211-214: push --slowmo when slowmo is truthy. -/
def pushSlowmo (config : PytestConfig) (newArgs : List String) : List String :=
  if config.slowmo then newArgs ++ ["--slowmo"] else newArgs

/-- Lines 216-219: push --tracing=(value) when truthy and not "none". -/
def pushTracing (config : PytestConfig) (newArgs : List String) : List String :=
  match config.tracing with
  | some t => if t != "" && t != "none" then newArgs ++ ["--tracing=" ++ t] else newArgs
  | none => newArgs

/-- Lines 221-224: push --video=(value) when truthy and not "none". -/
def pushVideo (config : PytestConfig) (newArgs : List String) : List String :=
  match config.video with
  | some v => if v != "" && v != "none" then newArgs ++ ["--video=" ++ v] else newArgs
  | none => newArgs

/-- The codec half of updateWorkspaceConfig (lines 156-224): starting from
the empty newArgs array, apply the eleven conditional pushes in source
order and return the resulting token list. -/
def updateWorkspaceConfig (config : PytestConfig) : List String :=
  pushVideo config
    (pushTracing config
      (pushSlowmo config
        (pushBrowser config
          (pushDelve config
            (pushHeaded config
              (pushShowlocals config
                (pushCaptureOutput config
                  (pushVerbosity config
                    (pushNumprocesses config
                      (pushTb config []))))))))))

/-- The token segment contributed by the tb field, in isolation. -/
def tbSeg : Option String → List String
  | some tb => if tb != "" && tb != "none" then ["--tb=" ++ tb] else []
  | none => []

/-- The token segment contributed by the numprocesses field. -/
def numprocessesSeg : Option String → List String
  | some np => if np != "" && np != "none" then ["--numprocesses=" ++ np] else []
  | none => []

/-- The token segment contributed by the verbosity field. -/
def verbositySeg : Option String → List String
  | some v =>
    if v != "" then
      if v == "quiet" then ["-q"]
      else if v == "verbose" then ["-v"]
      else if v == "more-verbose" then ["-vv"]
      else if v == "very-verbose" then ["-vvv"]
      else []
    else []
  | none => []

/-- The token segment contributed by the captureOutput field. -/
def captureOutputSeg (b : Bool) : List String :=
  if b then ["-s"] else []

/-- The token segment contributed by the showlocals field. -/
def showlocalsSeg (b : Bool) : List String :=
  if b then ["--showlocals"] else []

/-- The token segment contributed by the headed field. -/
def headedSeg (b : Bool) : List String :=
  if b then ["--headed"] else []

/-- The token segment contributed by the delve field. -/
def delveSeg (b : Bool) : List String :=
  if b then ["--delve=1"] else []

/-- The token segment contributed by the browser field. -/
def browserSeg : Option String → List String
  | some b => if b != "" && b != "none" then ["--browser=" ++ b] else []
  | none => []

/-- The token segment contributed by the slowmo field. -/
def slowmoSeg (b : Bool) : List String :=
  if b then ["--slowmo"] else []

/-- The token segment contributed by the tracing field. -/
def tracingSeg : Option String → List String
  | some t => if t != "" && t != "none" then ["--tracing=" ++ t] else []
  | none => []

/-- The token segment contributed by the video field. -/
def videoSeg : Option String → List String
  | some v => if v != "" && v != "none" then ["--video=" ++ v] else []
  | none => []

theorem pushTb_eq (c : PytestConfig) (acc : List String) :
    pushTb c acc = acc ++ tbSeg c.tb := by
  cases h : c.tb with
  | none => simp [pushTb, tbSeg, h]
  | some v =>
    simp only [pushTb, tbSeg, h]
    split_ifs <;> simp

theorem pushNumprocesses_eq (c : PytestConfig) (acc : List String) :
    pushNumprocesses c acc = acc ++ numprocessesSeg c.numprocesses := by
  cases h : c.numprocesses with
  | none => simp [pushNumprocesses, numprocessesSeg, h]
  | some v =>
    simp only [pushNumprocesses, numprocessesSeg, h]
    split_ifs <;> simp

theorem pushVerbosity_eq (c : PytestConfig) (acc : List String) :
    pushVerbosity c acc = acc ++ verbositySeg c.verbosity := by
  cases h : c.verbosity with
  | none => simp [pushVerbosity, verbositySeg, h]
  | some v =>
    simp only [pushVerbosity, verbositySeg, h]
    split_ifs <;> simp

theorem pushCaptureOutput_eq (c : PytestConfig) (acc : List String) :
    pushCaptureOutput c acc = acc ++ captureOutputSeg c.captureOutput := by
  unfold pushCaptureOutput captureOutputSeg
  split <;> simp

theorem pushShowlocals_eq (c : PytestConfig) (acc : List String) :
    pushShowlocals c acc = acc ++ showlocalsSeg c.showlocals := by
  unfold pushShowlocals showlocalsSeg
  split <;> simp

theorem pushHeaded_eq (c : PytestConfig) (acc : List String) :
    pushHeaded c acc = acc ++ headedSeg c.headed := by
  unfold pushHeaded headedSeg
  split <;> simp

theorem pushDelve_eq (c : PytestConfig) (acc : List String) :
    pushDelve c acc = acc ++ delveSeg c.delve := by
  unfold pushDelve delveSeg
  split <;> simp

theorem pushBrowser_eq (c : PytestConfig) (acc : List String) :
    pushBrowser c acc = acc ++ browserSeg c.browser := by
  cases h : c.browser with
  | none => simp [pushBrowser, browserSeg, h]
  | some v =>
    simp only [pushBrowser, browserSeg, h]
    split_ifs <;> simp

theorem pushSlowmo_eq (c : PytestConfig) (acc : List String) :
    pushSlowmo c acc = acc ++ slowmoSeg c.slowmo := by
  unfold pushSlowmo slowmoSeg
  split <;> simp

theorem pushTracing_eq (c : PytestConfig) (acc : List String) :
    pushTracing c acc = acc ++ tracingSeg c.tracing := by
  cases h : c.tracing with
  | none => simp [pushTracing, tracingSeg, h]
  | some v =>
    simp only [pushTracing, tracingSeg, h]
    split_ifs <;> simp

theorem pushVideo_eq (c : PytestConfig) (acc : List String) :
    pushVideo c acc = acc ++ videoSeg c.video := by
  cases h : c.video with
  | none => simp [pushVideo, videoSeg, h]
  | some v =>
    simp only [pushVideo, videoSeg, h]
    split_ifs <;> simp

/-- The encoder is the concatenation, in source order, of the eleven
per-field segments. -/
theorem encode_segs (c : PytestConfig) :
    updateWorkspaceConfig c =
      tbSeg c.tb ++ numprocessesSeg c.numprocesses ++ verbositySeg c.verbosity ++
        captureOutputSeg c.captureOutput ++ showlocalsSeg c.showlocals ++
        headedSeg c.headed ++ delveSeg c.delve ++ browserSeg c.browser ++
        slowmoSeg c.slowmo ++ tracingSeg c.tracing ++ videoSeg c.video := by
  unfold updateWorkspaceConfig
  rw [pushVideo_eq, pushTracing_eq, pushSlowmo_eq, pushBrowser_eq, pushDelve_eq,
    pushHeaded_eq, pushShowlocals_eq, pushCaptureOutput_eq, pushVerbosity_eq,
    pushNumprocesses_eq, pushTb_eq]
  simp [List.append_assoc]

/-- The JavaScript-style split never returns an empty list of segments. -/
theorem splitCharList_ne_nil (sep : Char) (l : List Char) :
    splitCharList sep l ≠ [] := by
  cases l with
  | nil => simp [splitCharList]
  | cons c cs =>
    by_cases h : c = sep
    · simp [splitCharList, h]
    · rcases hs : splitCharList sep cs with _ | ⟨hd, tl⟩ <;>
        simp [splitCharList, h, hs]

/-- The first segment of the JavaScript-style split is the longest
separator-free initial run of the input. -/
theorem splitCharList_head (sep : Char) (l : List Char) :
    (splitCharList sep l).head? = some (l.takeWhile (fun c => c != sep)) := by
  induction l with
  | nil => rfl
  | cons c cs ih =>
    by_cases h : c = sep
    · subst h
      simp [splitCharList, List.takeWhile]
    · rcases hs : splitCharList sep cs with _ | ⟨hd, tl⟩
      · rw [hs] at ih; simp at ih
      · rw [hs] at ih
        simp only [List.head?, Option.some.injEq] at ih
        subst ih
        have hb : (c != sep) = true := by simp [h]
        simp [splitCharList, h, hs, List.takeWhile, hb]

/-- Splitting a separator-free list yields that list as the only segment. -/
theorem splitCharList_noSep (sep : Char) (l : List Char)
    (h : l.all (fun c => c != sep) = true) : splitCharList sep l = [l] := by
  induction l with
  | nil => rfl
  | cons c cs ih =>
    simp only [List.all_cons, Bool.and_eq_true] at h
    have hc : ¬c = sep := by simpa using h.1
    simp [splitCharList, hc, ih h.2]

/-- The value stored by a prefix branch of the decoder: the segment of the
token suffix before its first '=' (the whole suffix when it has none). -/
def eqFreeHead (s : String) : String :=
  String.mk (s.data.takeWhile (fun c => c != '='))

theorem takeWhile_of_all (p : Char → Bool) (l : List Char) (h : l.all p = true) :
    l.takeWhile p = l := by
  induction l with
  | nil => rfl
  | cons c cs ih =>
    simp only [List.all_cons, Bool.and_eq_true] at h
    simp [List.takeWhile, h.1, ih h.2]

theorem eqFreeHead_of_all (s : String)
    (h : s.data.all (fun c => c != '=') = true) : eqFreeHead s = s := by
  unfold eqFreeHead
  rw [takeWhile_of_all _ _ h]

theorem mapMk_get1 (cs : List Char) (s : String) :
    ((cs :: splitCharList '=' s.data).map String.mk).get? 1 = some (eqFreeHead s) := by
  rcases hs : splitCharList '=' s.data with _ | ⟨hd, tl⟩
  · exact absurd hs (splitCharList_ne_nil _ _)
  · have hh := splitCharList_head '=' s.data
    rw [hs] at hh
    simp only [List.head?, Option.some.injEq] at hh
    subst hh
    simp [eqFreeHead]

/-- A token with the --tb= marker sets tb to the segment of the suffix
before its first '=', whatever the current state. -/
theorem decodeStep_tb (a : PytestConfig) (s : String) :
    decodeStep a ("--tb=" ++ s) = { a with tb := some (eqFreeHead s) } := by
  have h1 : decodeStep a ("--tb=" ++ s) =
      { a with tb := (("--tb".data :: splitCharList '=' s.data).map String.mk).get? 1 } := rfl
  rw [h1, mapMk_get1]

/-- A token with the --numprocesses= marker sets numprocesses likewise. -/
theorem decodeStep_numprocesses (a : PytestConfig) (s : String) :
    decodeStep a ("--numprocesses=" ++ s) =
      { a with numprocesses := some (eqFreeHead s) } := by
  have h1 : decodeStep a ("--numprocesses=" ++ s) =
      { a with numprocesses :=
          (("--numprocesses".data :: splitCharList '=' s.data).map String.mk).get? 1 } := rfl
  rw [h1, mapMk_get1]

/-- A token with the --browser= marker sets browser likewise. -/
theorem decodeStep_browser (a : PytestConfig) (s : String) :
    decodeStep a ("--browser=" ++ s) = { a with browser := some (eqFreeHead s) } := by
  have h1 : decodeStep a ("--browser=" ++ s) =
      { a with browser := (("--browser".data :: splitCharList '=' s.data).map String.mk).get? 1 } := rfl
  rw [h1, mapMk_get1]

/-- A token with the --tracing= marker sets tracing likewise. -/
theorem decodeStep_tracing (a : PytestConfig) (s : String) :
    decodeStep a ("--tracing=" ++ s) = { a with tracing := some (eqFreeHead s) } := by
  have h1 : decodeStep a ("--tracing=" ++ s) =
      { a with tracing := (("--tracing".data :: splitCharList '=' s.data).map String.mk).get? 1 } := rfl
  rw [h1, mapMk_get1]

/-- A token with the --video= marker sets video likewise. -/
theorem decodeStep_video (a : PytestConfig) (s : String) :
    decodeStep a ("--video=" ++ s) = { a with video := some (eqFreeHead s) } := by
  have h1 : decodeStep a ("--video=" ++ s) =
      { a with video := (("--video".data :: splitCharList '=' s.data).map String.mk).get? 1 } := rfl
  rw [h1, mapMk_get1]

/-- Documented domain of the tracebackStyle field: absent, or one of the
five dropdown values (spec section 3); the "none" sentinel is excluded. -/
def tbDomainOK : Option String → Bool
  | none => true
  | some s => s == "auto" || s == "long" || s == "short" || s == "native" || s == "no"

/-- Documented domain of numProcesses: absent, "auto", or a non-negative
integer written in decimal digits. -/
def numprocessesDomainOK : Option String → Bool
  | none => true
  | some s => s == "auto" || (s != "" && s.data.all (fun c => c.isDigit))

/-- Documented domain of verbosity: absent or one of the four levels. -/
def verbosityDomainOK : Option String → Bool
  | none => true
  | some s => s == "quiet" || s == "verbose" || s == "more-verbose" || s == "very-verbose"

/-- Documented domain of browser: absent or one of the three engines. -/
def browserDomainOK : Option String → Bool
  | none => true
  | some s => s == "chromium" || s == "firefox" || s == "webkit"

/-- Documented domain of tracing: absent or one of the three modes. -/
def tracingDomainOK : Option String → Bool
  | none => true
  | some s => s == "on" || s == "off" || s == "retain-on-failure"

/-- Documented domain of video: absent or one of the three modes. -/
def videoDomainOK : Option String → Bool
  | none => true
  | some s => s == "on" || s == "off" || s == "retain-on-failure"

/-- Absent-field normalization from the spec: every optional field is
absent or inside its documented domain (which excludes the "none" sentinel
and the empty string); boolean fields carry no constraint since false is
their zero state. -/
def NormalizedConfig (c : PytestConfig) : Prop :=
  tbDomainOK c.tb = true ∧ numprocessesDomainOK c.numprocesses = true ∧
    verbosityDomainOK c.verbosity = true ∧ browserDomainOK c.browser = true ∧
    tracingDomainOK c.tracing = true ∧ videoDomainOK c.video = true

theorem foldl_tbSeg (a : PytestConfig) (v : Option String)
    (hv : tbDomainOK v = true) (ha : a.tb = none) :
    List.foldl decodeStep a (tbSeg v) = { a with tb := v } := by
  cases v with
  | none =>
    have hL : List.foldl decodeStep a (tbSeg none) = a := rfl
    rw [hL, ← ha]
  | some s =>
    simp only [tbDomainOK, Bool.or_eq_true, beq_iff_eq] at hv
    rcases hv with ((((h | h) | h) | h) | h) <;> subst h <;> rfl

theorem foldl_numprocessesSeg (a : PytestConfig) (v : Option String)
    (hv : numprocessesDomainOK v = true) (ha : a.numprocesses = none) :
    List.foldl decodeStep a (numprocessesSeg v) = { a with numprocesses := v } := by
  cases v with
  | none =>
    have hL : List.foldl decodeStep a (numprocessesSeg none) = a := rfl
    rw [hL, ← ha]
  | some s =>
    simp only [numprocessesDomainOK, Bool.or_eq_true, Bool.and_eq_true, beq_iff_eq] at hv
    rcases hv with h | ⟨h1, h2⟩
    · subst h; rfl
    · have hne : ¬s = "" := by simpa using h1
      have hnone : ¬s = "none" := by
        intro hx
        subst hx
        exact absurd h2 (by decide)
      have hseg : numprocessesSeg (some s) = ["--numprocesses=" ++ s] := by
        simp [numprocessesSeg, hne, hnone]
      have hall : s.data.all (fun c => c != '=') = true := by
        rw [List.all_eq_true] at h2 ⊢
        intro c hc
        have hd := h2 c hc
        simp only [bne_iff_ne, ne_eq]
        intro hce
        subst hce
        exact absurd hd (by decide)
      rw [hseg]
      calc
        List.foldl decodeStep a ["--numprocesses=" ++ s] =
            decodeStep a ("--numprocesses=" ++ s) := rfl
        _ = { a with numprocesses := some (eqFreeHead s) } := decodeStep_numprocesses a s
        _ = { a with numprocesses := some s } := by rw [eqFreeHead_of_all s hall]

theorem foldl_verbositySeg (a : PytestConfig) (v : Option String)
    (hv : verbosityDomainOK v = true) (ha : a.verbosity = none) :
    List.foldl decodeStep a (verbositySeg v) = { a with verbosity := v } := by
  cases v with
  | none =>
    have hL : List.foldl decodeStep a (verbositySeg none) = a := rfl
    rw [hL, ← ha]
  | some s =>
    simp only [verbosityDomainOK, Bool.or_eq_true, beq_iff_eq] at hv
    rcases hv with (((h | h) | h) | h) <;> subst h <;> rfl

theorem foldl_captureOutputSeg (a : PytestConfig) (b : Bool)
    (ha : a.captureOutput = false) :
    List.foldl decodeStep a (captureOutputSeg b) = { a with captureOutput := b } := by
  cases b with
  | false =>
    have hL : List.foldl decodeStep a (captureOutputSeg false) = a := rfl
    rw [hL, ← ha]
  | true => rfl

theorem foldl_showlocalsSeg (a : PytestConfig) (b : Bool)
    (ha : a.showlocals = false) :
    List.foldl decodeStep a (showlocalsSeg b) = { a with showlocals := b } := by
  cases b with
  | false =>
    have hL : List.foldl decodeStep a (showlocalsSeg false) = a := rfl
    rw [hL, ← ha]
  | true => rfl

theorem foldl_headedSeg (a : PytestConfig) (b : Bool)
    (ha : a.headed = false) :
    List.foldl decodeStep a (headedSeg b) = { a with headed := b } := by
  cases b with
  | false =>
    have hL : List.foldl decodeStep a (headedSeg false) = a := rfl
    rw [hL, ← ha]
  | true => rfl

theorem foldl_delveSeg (a : PytestConfig) (b : Bool)
    (ha : a.delve = false) :
    List.foldl decodeStep a (delveSeg b) = { a with delve := b } := by
  cases b with
  | false =>
    have hL : List.foldl decodeStep a (delveSeg false) = a := rfl
    rw [hL, ← ha]
  | true => rfl

theorem foldl_browserSeg (a : PytestConfig) (v : Option String)
    (hv : browserDomainOK v = true) (ha : a.browser = none) :
    List.foldl decodeStep a (browserSeg v) = { a with browser := v } := by
  cases v with
  | none =>
    have hL : List.foldl decodeStep a (browserSeg none) = a := rfl
    rw [hL, ← ha]
  | some s =>
    simp only [browserDomainOK, Bool.or_eq_true, beq_iff_eq] at hv
    rcases hv with ((h | h) | h) <;> subst h <;> rfl

theorem foldl_slowmoSeg (a : PytestConfig) (b : Bool)
    (ha : a.slowmo = false) :
    List.foldl decodeStep a (slowmoSeg b) = { a with slowmo := b } := by
  cases b with
  | false =>
    have hL : List.foldl decodeStep a (slowmoSeg false) = a := rfl
    rw [hL, ← ha]
  | true => rfl

theorem foldl_tracingSeg (a : PytestConfig) (v : Option String)
    (hv : tracingDomainOK v = true) (ha : a.tracing = none) :
    List.foldl decodeStep a (tracingSeg v) = { a with tracing := v } := by
  cases v with
  | none =>
    have hL : List.foldl decodeStep a (tracingSeg none) = a := rfl
    rw [hL, ← ha]
  | some s =>
    simp only [tracingDomainOK, Bool.or_eq_true, beq_iff_eq] at hv
    rcases hv with ((h | h) | h) <;> subst h <;> rfl

theorem foldl_videoSeg (a : PytestConfig) (v : Option String)
    (hv : videoDomainOK v = true) (ha : a.video = none) :
    List.foldl decodeStep a (videoSeg v) = { a with video := v } := by
  cases v with
  | none =>
    have hL : List.foldl decodeStep a (videoSeg none) = a := rfl
    rw [hL, ← ha]
  | some s =>
    simp only [videoDomainOK, Bool.or_eq_true, beq_iff_eq] at hv
    rcases hv with ((h | h) | h) <;> subst h <;> rfl

/-- C1: for every absent-field-normalized Configuration (optional fields
absent or inside their documented domains, hence never the "none" sentinel;
booleans unconstrained since false is their zero state), decoding the token
list produced by encoding the configuration yields the very same
configuration record. -/
theorem decode_encode_roundtrip (c : PytestConfig) (h : NormalizedConfig c) :
    getCurrentConfig (updateWorkspaceConfig c) = c := by
  obtain ⟨h1, h2, h3, h4, h5, h6⟩ := h
  obtain ⟨tb, np, verb, cap, headed, delve, browser, slowmo, tracing, video, showlocals⟩ := c
  rw [getCurrentConfig, encode_segs]
  simp only [List.foldl_append]
  rw [foldl_tbSeg _ _ h1 rfl]
  rw [foldl_numprocessesSeg _ _ h2 rfl]
  rw [foldl_verbositySeg _ _ h3 rfl]
  rw [foldl_captureOutputSeg _ _ rfl]
  rw [foldl_showlocalsSeg _ _ rfl]
  rw [foldl_headedSeg _ _ rfl]
  rw [foldl_delveSeg _ _ rfl]
  rw [foldl_browserSeg _ _ h4 rfl]
  rw [foldl_slowmoSeg _ _ rfl]
  rw [foldl_tracingSeg _ _ h5 rfl]
  rw [foldl_videoSeg _ _ h6 rfl]

/-- Concrete instance of the round-trip theorem on a populated normalized
configuration. -/
theorem decode_encode_roundtrip_witness :
    NormalizedConfig
        { tb := some "short", numprocesses := some "4", verbosity := some "verbose",
          captureOutput := true, delve := true, browser := some "chromium",
          tracing := some "on" } ∧
      getCurrentConfig
          (updateWorkspaceConfig
            { tb := some "short", numprocesses := some "4", verbosity := some "verbose",
              captureOutput := true, delve := true, browser := some "chromium",
              tracing := some "on" }) =
        { tb := some "short", numprocesses := some "4", verbosity := some "verbose",
          captureOutput := true, delve := true, browser := some "chromium",
          tracing := some "on" } :=
  have hn : NormalizedConfig
      { tb := some "short", numprocesses := some "4", verbosity := some "verbose",
        captureOutput := true, delve := true, browser := some "chromium",
        tracing := some "on" } := ⟨rfl, rfl, rfl, rfl, rfl, rfl⟩
  ⟨hn, decode_encode_roundtrip _ hn⟩

theorem tbSeg_len (v : Option String) : (tbSeg v).length ≤ 1 := by
  cases v with
  | none => simp [tbSeg]
  | some s =>
    simp only [tbSeg]
    split_ifs <;> simp

theorem numprocessesSeg_len (v : Option String) : (numprocessesSeg v).length ≤ 1 := by
  cases v with
  | none => simp [numprocessesSeg]
  | some s =>
    simp only [numprocessesSeg]
    split_ifs <;> simp

theorem verbositySeg_len (v : Option String) : (verbositySeg v).length ≤ 1 := by
  cases v with
  | none => simp [verbositySeg]
  | some s =>
    simp only [verbositySeg]
    split_ifs <;> simp

theorem captureOutputSeg_len (b : Bool) : (captureOutputSeg b).length ≤ 1 := by
  cases b <;> simp [captureOutputSeg]

theorem showlocalsSeg_len (b : Bool) : (showlocalsSeg b).length ≤ 1 := by
  cases b <;> simp [showlocalsSeg]

theorem headedSeg_len (b : Bool) : (headedSeg b).length ≤ 1 := by
  cases b <;> simp [headedSeg]

theorem delveSeg_len (b : Bool) : (delveSeg b).length ≤ 1 := by
  cases b <;> simp [delveSeg]

theorem browserSeg_len (v : Option String) : (browserSeg v).length ≤ 1 := by
  cases v with
  | none => simp [browserSeg]
  | some s =>
    simp only [browserSeg]
    split_ifs <;> simp

theorem slowmoSeg_len (b : Bool) : (slowmoSeg b).length ≤ 1 := by
  cases b <;> simp [slowmoSeg]

theorem tracingSeg_len (v : Option String) : (tracingSeg v).length ≤ 1 := by
  cases v with
  | none => simp [tracingSeg]
  | some s =>
    simp only [tracingSeg]
    split_ifs <;> simp

theorem videoSeg_len (v : Option String) : (videoSeg v).length ≤ 1 := by
  cases v with
  | none => simp [videoSeg]
  | some s =>
    simp only [videoSeg]
    split_ifs <;> simp

/-- C2: the encoder output is exactly the concatenation, in the fixed
source order, of eleven per-field segments, each of length at most one and
each a function of its own field only; in particular the stated concrete
configuration encodes to exactly the three tokens, and since the encoder is
a pure function of the record, the output never depends on how the record
was built. -/
theorem encode_fixed_order :
    (∀ c : PytestConfig,
      updateWorkspaceConfig c =
        tbSeg c.tb ++ numprocessesSeg c.numprocesses ++ verbositySeg c.verbosity ++
          captureOutputSeg c.captureOutput ++ showlocalsSeg c.showlocals ++
          headedSeg c.headed ++ delveSeg c.delve ++ browserSeg c.browser ++
          slowmoSeg c.slowmo ++ tracingSeg c.tracing ++ videoSeg c.video) ∧
    (∀ v, (tbSeg v).length ≤ 1) ∧ (∀ v, (numprocessesSeg v).length ≤ 1) ∧
    (∀ v, (verbositySeg v).length ≤ 1) ∧ (∀ b, (captureOutputSeg b).length ≤ 1) ∧
    (∀ b, (showlocalsSeg b).length ≤ 1) ∧ (∀ b, (headedSeg b).length ≤ 1) ∧
    (∀ b, (delveSeg b).length ≤ 1) ∧ (∀ v, (browserSeg v).length ≤ 1) ∧
    (∀ b, (slowmoSeg b).length ≤ 1) ∧ (∀ v, (tracingSeg v).length ≤ 1) ∧
    (∀ v, (videoSeg v).length ≤ 1) ∧
    updateWorkspaceConfig
        { tb := some "short", verbosity := some "verbose", captureOutput := true } =
      ["--tb=short", "-v", "-s"] :=
  ⟨encode_segs, tbSeg_len, numprocessesSeg_len, verbositySeg_len, captureOutputSeg_len,
    showlocalsSeg_len, headedSeg_len, delveSeg_len, browserSeg_len, slowmoSeg_len,
    tracingSeg_len, videoSeg_len, rfl⟩

/-- C3 counterexample: on the token --tb=a=b the decoder stores only "a",
the split('=')[1] segment, not the entire suffix "a=b" after the prefix. -/
theorem decode_suffix_counterexample :
    (getCurrentConfig ["--tb=a=b"]).tb = some "a" ∧
      (getCurrentConfig ["--tb=a=b"]).tb ≠ some "a=b" :=
  ⟨rfl, by decide⟩

/-- C3 amended: for every token formed from one of the five recognized
markers followed by a suffix, the decoder sets the corresponding field to
the part of the suffix before its first '=' (the entire suffix when the
suffix contains no '='); the concrete scenario of the claim holds as
stated. -/
theorem decode_sets_field_from_suffix :
    (∀ (a : PytestConfig) (s : String),
      decodeStep a ("--tb=" ++ s) = { a with tb := some (eqFreeHead s) } ∧
      decodeStep a ("--numprocesses=" ++ s) = { a with numprocesses := some (eqFreeHead s) } ∧
      decodeStep a ("--browser=" ++ s) = { a with browser := some (eqFreeHead s) } ∧
      decodeStep a ("--tracing=" ++ s) = { a with tracing := some (eqFreeHead s) } ∧
      decodeStep a ("--video=" ++ s) = { a with video := some (eqFreeHead s) }) ∧
    getCurrentConfig ["--numprocesses=auto", "--browser=chromium", "--headed"] =
      { numprocesses := some "auto", browser := some "chromium", headed := true } :=
  ⟨fun a s =>
    ⟨decodeStep_tb a s, decodeStep_numprocesses a s, decodeStep_browser a s,
      decodeStep_tracing a s, decodeStep_video a s⟩,
    rfl⟩

/-- C4: decoding the empty token list yields the zero configuration, and
encoding the zero configuration yields the empty token list. -/
theorem decode_empty_and_encode_zero :
    getCurrentConfig [] = ({} : PytestConfig) ∧
      updateWorkspaceConfig ({} : PytestConfig) = [] :=
  ⟨rfl, rfl⟩

/-- C7: the encoder emits no token for a field at its zero or sentinel
value: each per-field segment (of which the output is the ordered
concatenation) is empty at none, at the "none" sentinel, and at false; for
verbosity the empty string is its designated absent sentinel. -/
theorem encode_no_token_for_zero_fields :
    (∀ c : PytestConfig,
      updateWorkspaceConfig c =
        tbSeg c.tb ++ numprocessesSeg c.numprocesses ++ verbositySeg c.verbosity ++
          captureOutputSeg c.captureOutput ++ showlocalsSeg c.showlocals ++
          headedSeg c.headed ++ delveSeg c.delve ++ browserSeg c.browser ++
          slowmoSeg c.slowmo ++ tracingSeg c.tracing ++ videoSeg c.video) ∧
    tbSeg none = [] ∧ tbSeg (some "none") = [] ∧
    numprocessesSeg none = [] ∧ numprocessesSeg (some "none") = [] ∧
    verbositySeg none = [] ∧ verbositySeg (some "") = [] ∧
    captureOutputSeg false = [] ∧ showlocalsSeg false = [] ∧
    headedSeg false = [] ∧ delveSeg false = [] ∧
    browserSeg none = [] ∧ browserSeg (some "none") = [] ∧
    slowmoSeg false = [] ∧
    tracingSeg none = [] ∧ tracingSeg (some "none") = [] ∧
    videoSeg none = [] ∧ videoSeg (some "none") = [] :=
  ⟨encode_segs, rfl, rfl, rfl, rfl, rfl, rfl, rfl, rfl, rfl, rfl, rfl, rfl, rfl,
    rfl, rfl, rfl, rfl⟩

/-- C8: both codec operations are total Lean functions: decoding any list
of strings yields a configuration and encoding any configuration yields a
token list; no failure value exists in either signature. -/
theorem codec_total :
    (∀ args : List String, ∃ c : PytestConfig, getCurrentConfig args = c) ∧
      (∀ c : PytestConfig, ∃ tokens : List String, updateWorkspaceConfig c = tokens) :=
  ⟨fun args => ⟨getCurrentConfig args, rfl⟩, fun c => ⟨updateWorkspaceConfig c, rfl⟩⟩

/-- A token is recognized when it satisfies one of the fourteen branch
tests of the decoding loop. -/
def recognizedArg (arg : String) : Bool :=
  jsStartsWith arg "--tb=" || jsStartsWith arg "--numprocesses=" || arg == "-q" ||
    arg == "-v" || arg == "-vv" || arg == "-vvv" || arg == "-s" ||
    arg == "--showlocals" || arg == "--headed" || arg == "--delve=1" ||
    jsStartsWith arg "--browser=" || arg == "--slowmo" ||
    jsStartsWith arg "--tracing=" || jsStartsWith arg "--video="

theorem decodeStep_unrecognized (a : PytestConfig) (arg : String)
    (h : recognizedArg arg = false) : decodeStep a arg = a := by
  unfold recognizedArg at h
  simp only [Bool.or_eq_false_iff] at h
  obtain ⟨⟨⟨⟨⟨⟨⟨⟨⟨⟨⟨⟨⟨h1, h2⟩, h3⟩, h4⟩, h5⟩, h6⟩, h7⟩, h8⟩, h9⟩, h10⟩, h11⟩, h12⟩, h13⟩, h14⟩ := h
  unfold decodeStep
  simp only [h1, h2, h3, h4, h5, h6, h7, h8, h9, h10, h11, h12, h13, h14,
    Bool.false_eq_true, if_false]

/-- C6: removing every unrecognized token from the input leaves the
decoded configuration unchanged, and decoding never fails; the concrete
scenario with a foreign --foo=bar token decodes to quiet verbosity only. -/
theorem decode_ignores_unrecognized :
    (∀ t : List String, getCurrentConfig t = getCurrentConfig (t.filter recognizedArg)) ∧
      getCurrentConfig ["--foo=bar", "-q"] = { verbosity := some "quiet" } := by
  constructor
  · intro t
    unfold getCurrentConfig
    generalize ({} : PytestConfig) = a
    induction t generalizing a with
    | nil => rfl
    | cons x xs ih =>
      rcases hx : recognizedArg x with _ | _
      · rw [List.foldl_cons, decodeStep_unrecognized a x hx, List.filter_cons]
        simp only [hx]
        exact ih a
      · rw [List.foldl_cons, List.filter_cons]
        simp only [hx, if_true]
        rw [List.foldl_cons]
        exact ih (decodeStep a x)
  · rfl

theorem decodeStep_captureOutput (a : PytestConfig) (tok : String) :
    (decodeStep a tok).captureOutput = (a.captureOutput || (tok == "-s")) := by
  rcases htok : tok == "-s" with _ | _
  · rw [Bool.or_false]
    unfold decodeStep
    simp only [htok, Bool.false_eq_true, if_false, apply_ite PytestConfig.captureOutput,
      ite_self]
  · have ht : tok = "-s" := by simpa using htok
    subst ht
    have hL : (decodeStep a "-s").captureOutput = true := rfl
    rw [hL, Bool.or_true]

theorem decodeStep_showlocals (a : PytestConfig) (tok : String) :
    (decodeStep a tok).showlocals = (a.showlocals || (tok == "--showlocals")) := by
  rcases htok : tok == "--showlocals" with _ | _
  · rw [Bool.or_false]
    unfold decodeStep
    simp only [htok, Bool.false_eq_true, if_false, apply_ite PytestConfig.showlocals,
      ite_self]
  · have ht : tok = "--showlocals" := by simpa using htok
    subst ht
    have hL : (decodeStep a "--showlocals").showlocals = true := rfl
    rw [hL, Bool.or_true]

theorem decodeStep_headed (a : PytestConfig) (tok : String) :
    (decodeStep a tok).headed = (a.headed || (tok == "--headed")) := by
  rcases htok : tok == "--headed" with _ | _
  · rw [Bool.or_false]
    unfold decodeStep
    simp only [htok, Bool.false_eq_true, if_false, apply_ite PytestConfig.headed,
      ite_self]
  · have ht : tok = "--headed" := by simpa using htok
    subst ht
    have hL : (decodeStep a "--headed").headed = true := rfl
    rw [hL, Bool.or_true]

theorem decodeStep_slowmo (a : PytestConfig) (tok : String) :
    (decodeStep a tok).slowmo = (a.slowmo || (tok == "--slowmo")) := by
  rcases htok : tok == "--slowmo" with _ | _
  · rw [Bool.or_false]
    unfold decodeStep
    simp only [htok, Bool.false_eq_true, if_false, apply_ite PytestConfig.slowmo,
      ite_self]
  · have ht : tok = "--slowmo" := by simpa using htok
    subst ht
    have hL : (decodeStep a "--slowmo").slowmo = true := rfl
    rw [hL, Bool.or_true]

theorem decodeStep_delve (a : PytestConfig) (tok : String) :
    (decodeStep a tok).delve = (a.delve || (tok == "--delve=1")) := by
  rcases htok : tok == "--delve=1" with _ | _
  · rw [Bool.or_false]
    unfold decodeStep
    simp only [htok, Bool.false_eq_true, if_false, apply_ite PytestConfig.delve,
      ite_self]
  · have ht : tok = "--delve=1" := by simpa using htok
    subst ht
    have hL : (decodeStep a "--delve=1").delve = true := rfl
    rw [hL, Bool.or_true]

theorem foldl_captureOutput (t : List String) (a : PytestConfig) :
    (List.foldl decodeStep a t).captureOutput =
      (a.captureOutput || t.any (fun x => x == "-s")) := by
  induction t generalizing a with
  | nil => simp
  | cons x xs ih =>
    rw [List.foldl_cons, ih, decodeStep_captureOutput, List.any_cons, Bool.or_assoc]

theorem foldl_showlocals (t : List String) (a : PytestConfig) :
    (List.foldl decodeStep a t).showlocals =
      (a.showlocals || t.any (fun x => x == "--showlocals")) := by
  induction t generalizing a with
  | nil => simp
  | cons x xs ih =>
    rw [List.foldl_cons, ih, decodeStep_showlocals, List.any_cons, Bool.or_assoc]

theorem foldl_headed (t : List String) (a : PytestConfig) :
    (List.foldl decodeStep a t).headed =
      (a.headed || t.any (fun x => x == "--headed")) := by
  induction t generalizing a with
  | nil => simp
  | cons x xs ih =>
    rw [List.foldl_cons, ih, decodeStep_headed, List.any_cons, Bool.or_assoc]

theorem foldl_slowmo (t : List String) (a : PytestConfig) :
    (List.foldl decodeStep a t).slowmo =
      (a.slowmo || t.any (fun x => x == "--slowmo")) := by
  induction t generalizing a with
  | nil => simp
  | cons x xs ih =>
    rw [List.foldl_cons, ih, decodeStep_slowmo, List.any_cons, Bool.or_assoc]

theorem foldl_delve (t : List String) (a : PytestConfig) :
    (List.foldl decodeStep a t).delve =
      (a.delve || t.any (fun x => x == "--delve=1")) := by
  induction t generalizing a with
  | nil => simp
  | cons x xs ih =>
    rw [List.foldl_cons, ih, decodeStep_delve, List.any_cons, Bool.or_assoc]

/-- C9: each boolean field of the decoded configuration is true exactly
when the corresponding exact token occurs in the input; the variant token
--delve=2 does not set the debugger field; and a single decoding step never
turns a boolean field that is already true back to false. -/
theorem decode_bool_iff_token :
    (∀ t : List String,
      ((getCurrentConfig t).captureOutput = true ↔ "-s" ∈ t) ∧
      ((getCurrentConfig t).showlocals = true ↔ "--showlocals" ∈ t) ∧
      ((getCurrentConfig t).headed = true ↔ "--headed" ∈ t) ∧
      ((getCurrentConfig t).slowmo = true ↔ "--slowmo" ∈ t) ∧
      ((getCurrentConfig t).delve = true ↔ "--delve=1" ∈ t)) ∧
    (getCurrentConfig ["--delve=2"]).delve = false ∧
    (∀ (a : PytestConfig) (tok : String),
      (a.captureOutput = true → (decodeStep a tok).captureOutput = true) ∧
      (a.showlocals = true → (decodeStep a tok).showlocals = true) ∧
      (a.headed = true → (decodeStep a tok).headed = true) ∧
      (a.slowmo = true → (decodeStep a tok).slowmo = true) ∧
      (a.delve = true → (decodeStep a tok).delve = true)) := by
  refine ⟨fun t => ⟨?_, ?_, ?_, ?_, ?_⟩, rfl, fun a tok => ⟨?_, ?_, ?_, ?_, ?_⟩⟩
  · rw [getCurrentConfig, foldl_captureOutput]
    simp [List.any_eq_true]
  · rw [getCurrentConfig, foldl_showlocals]
    simp [List.any_eq_true]
  · rw [getCurrentConfig, foldl_headed]
    simp [List.any_eq_true]
  · rw [getCurrentConfig, foldl_slowmo]
    simp [List.any_eq_true]
  · rw [getCurrentConfig, foldl_delve]
    simp [List.any_eq_true]
  · intro h
    rw [decodeStep_captureOutput, h, Bool.true_or]
  · intro h
    rw [decodeStep_showlocals, h, Bool.true_or]
  · intro h
    rw [decodeStep_headed, h, Bool.true_or]
  · intro h
    rw [decodeStep_slowmo, h, Bool.true_or]
  · intro h
    rw [decodeStep_delve, h, Bool.true_or]

/-- Concrete instance of the monotone part of the boolean-field theorem:
an unrelated token keeps every already-set boolean field set. -/
theorem decode_bool_iff_token_witness :
    (decodeStep
        { captureOutput := true, headed := true, delve := true, slowmo := true,
          showlocals := true } "--foo").captureOutput = true ∧
      (decodeStep
          { captureOutput := true, headed := true, delve := true, slowmo := true,
            showlocals := true } "--foo").showlocals = true :=
  ⟨(decode_bool_iff_token.2.2
      { captureOutput := true, headed := true, delve := true, slowmo := true,
        showlocals := true } "--foo").1 rfl,
    (decode_bool_iff_token.2.2
        { captureOutput := true, headed := true, delve := true, slowmo := true,
          showlocals := true } "--foo").2.1 rfl⟩

/-- The verbosity level selected by a verbosity flag token, if any. -/
def verbosityFlagVal (tok : String) : Option String :=
  if tok == "-q" then some "quiet"
  else if tok == "-v" then some "verbose"
  else if tok == "-vv" then some "more-verbose"
  else if tok == "-vvv" then some "very-verbose"
  else none

theorem decodeStep_keeps_tb (a : PytestConfig) (tok : String)
    (h : jsStartsWith tok "--tb=" = false) : (decodeStep a tok).tb = a.tb := by
  unfold decodeStep
  simp only [h, Bool.false_eq_true, if_false, apply_ite PytestConfig.tb, ite_self]

theorem decodeStep_keeps_numprocesses (a : PytestConfig) (tok : String)
    (h : jsStartsWith tok "--numprocesses=" = false) :
    (decodeStep a tok).numprocesses = a.numprocesses := by
  unfold decodeStep
  simp only [h, Bool.false_eq_true, if_false, apply_ite PytestConfig.numprocesses, ite_self]

theorem decodeStep_keeps_browser (a : PytestConfig) (tok : String)
    (h : jsStartsWith tok "--browser=" = false) : (decodeStep a tok).browser = a.browser := by
  unfold decodeStep
  simp only [h, Bool.false_eq_true, if_false, apply_ite PytestConfig.browser, ite_self]

theorem decodeStep_keeps_tracing (a : PytestConfig) (tok : String)
    (h : jsStartsWith tok "--tracing=" = false) : (decodeStep a tok).tracing = a.tracing := by
  unfold decodeStep
  simp only [h, Bool.false_eq_true, if_false, apply_ite PytestConfig.tracing, ite_self]

theorem decodeStep_keeps_video (a : PytestConfig) (tok : String)
    (h : jsStartsWith tok "--video=" = false) : (decodeStep a tok).video = a.video := by
  unfold decodeStep
  simp only [h, Bool.false_eq_true, if_false, apply_ite PytestConfig.video, ite_self]

theorem decodeStep_keeps_verbosity (a : PytestConfig) (tok : String)
    (h : verbosityFlagVal tok = none) : (decodeStep a tok).verbosity = a.verbosity := by
  unfold verbosityFlagVal at h
  split_ifs at h with h1 h2 h3 h4
  simp only [Bool.not_eq_true] at h1 h2 h3 h4
  unfold decodeStep
  simp only [h1, h2, h3, h4, Bool.false_eq_true, if_false,
    apply_ite PytestConfig.verbosity, ite_self]

theorem decodeStep_sets_verbosity (a : PytestConfig) (tok : String) (v : String)
    (h : verbosityFlagVal tok = some v) : (decodeStep a tok).verbosity = some v := by
  unfold verbosityFlagVal at h
  split_ifs at h with h1 h2 h3 h4
  · have ht : tok = "-q" := by simpa using h1
    subst ht
    injection h with hv
    subst hv
    rfl
  · have ht : tok = "-v" := by simpa using h2
    subst ht
    injection h with hv
    subst hv
    rfl
  · have ht : tok = "-vv" := by simpa using h3
    subst ht
    injection h with hv
    subst hv
    rfl
  · have ht : tok = "-vvv" := by simpa using h4
    subst ht
    injection h with hv
    subst hv
    rfl

theorem foldl_keeps_tb (l : List String) (a : PytestConfig)
    (h : ∀ u ∈ l, jsStartsWith u "--tb=" = false) :
    (List.foldl decodeStep a l).tb = a.tb := by
  induction l generalizing a with
  | nil => rfl
  | cons x xs ih =>
    rw [List.foldl_cons, ih _ fun u hu => h u (List.mem_cons_of_mem _ hu),
      decodeStep_keeps_tb a x (h x (List.mem_cons_self _ _))]

theorem foldl_keeps_numprocesses (l : List String) (a : PytestConfig)
    (h : ∀ u ∈ l, jsStartsWith u "--numprocesses=" = false) :
    (List.foldl decodeStep a l).numprocesses = a.numprocesses := by
  induction l generalizing a with
  | nil => rfl
  | cons x xs ih =>
    rw [List.foldl_cons, ih _ fun u hu => h u (List.mem_cons_of_mem _ hu),
      decodeStep_keeps_numprocesses a x (h x (List.mem_cons_self _ _))]

theorem foldl_keeps_browser (l : List String) (a : PytestConfig)
    (h : ∀ u ∈ l, jsStartsWith u "--browser=" = false) :
    (List.foldl decodeStep a l).browser = a.browser := by
  induction l generalizing a with
  | nil => rfl
  | cons x xs ih =>
    rw [List.foldl_cons, ih _ fun u hu => h u (List.mem_cons_of_mem _ hu),
      decodeStep_keeps_browser a x (h x (List.mem_cons_self _ _))]

theorem foldl_keeps_tracing (l : List String) (a : PytestConfig)
    (h : ∀ u ∈ l, jsStartsWith u "--tracing=" = false) :
    (List.foldl decodeStep a l).tracing = a.tracing := by
  induction l generalizing a with
  | nil => rfl
  | cons x xs ih =>
    rw [List.foldl_cons, ih _ fun u hu => h u (List.mem_cons_of_mem _ hu),
      decodeStep_keeps_tracing a x (h x (List.mem_cons_self _ _))]

theorem foldl_keeps_video (l : List String) (a : PytestConfig)
    (h : ∀ u ∈ l, jsStartsWith u "--video=" = false) :
    (List.foldl decodeStep a l).video = a.video := by
  induction l generalizing a with
  | nil => rfl
  | cons x xs ih =>
    rw [List.foldl_cons, ih _ fun u hu => h u (List.mem_cons_of_mem _ hu),
      decodeStep_keeps_video a x (h x (List.mem_cons_self _ _))]

theorem foldl_keeps_verbosity (l : List String) (a : PytestConfig)
    (h : ∀ u ∈ l, verbosityFlagVal u = none) :
    (List.foldl decodeStep a l).verbosity = a.verbosity := by
  induction l generalizing a with
  | nil => rfl
  | cons x xs ih =>
    rw [List.foldl_cons, ih _ fun u hu => h u (List.mem_cons_of_mem _ hu),
      decodeStep_keeps_verbosity a x (h x (List.mem_cons_self _ _))]

/-- C5: whenever a token list contains a matching token followed only by
tokens that do not match the same field, the decoded field carries the
value of that last matching token, whatever came before it: last
occurrence wins for verbosity flags and for every prefix-matched field;
the concrete conflict quiet-then-more-verbose resolves to more-verbose. -/
theorem decode_last_match_wins :
    (∀ (l1 l2 : List String) (tok v : String),
      verbosityFlagVal tok = some v → (∀ u ∈ l2, verbosityFlagVal u = none) →
      (getCurrentConfig (l1 ++ tok :: l2)).verbosity = some v) ∧
    (∀ (l1 l2 : List String) (s : String),
      (∀ u ∈ l2, jsStartsWith u "--tb=" = false) →
      (getCurrentConfig (l1 ++ ("--tb=" ++ s) :: l2)).tb = some (eqFreeHead s)) ∧
    (∀ (l1 l2 : List String) (s : String),
      (∀ u ∈ l2, jsStartsWith u "--numprocesses=" = false) →
      (getCurrentConfig (l1 ++ ("--numprocesses=" ++ s) :: l2)).numprocesses =
        some (eqFreeHead s)) ∧
    (∀ (l1 l2 : List String) (s : String),
      (∀ u ∈ l2, jsStartsWith u "--browser=" = false) →
      (getCurrentConfig (l1 ++ ("--browser=" ++ s) :: l2)).browser = some (eqFreeHead s)) ∧
    (∀ (l1 l2 : List String) (s : String),
      (∀ u ∈ l2, jsStartsWith u "--tracing=" = false) →
      (getCurrentConfig (l1 ++ ("--tracing=" ++ s) :: l2)).tracing = some (eqFreeHead s)) ∧
    (∀ (l1 l2 : List String) (s : String),
      (∀ u ∈ l2, jsStartsWith u "--video=" = false) →
      (getCurrentConfig (l1 ++ ("--video=" ++ s) :: l2)).video = some (eqFreeHead s)) ∧
    (∀ l1 l2 : List String,
      (getCurrentConfig (l1 ++ "-s" :: l2)).captureOutput = true ∧
        (getCurrentConfig (l1 ++ "--showlocals" :: l2)).showlocals = true ∧
        (getCurrentConfig (l1 ++ "--headed" :: l2)).headed = true ∧
        (getCurrentConfig (l1 ++ "--slowmo" :: l2)).slowmo = true ∧
        (getCurrentConfig (l1 ++ "--delve=1" :: l2)).delve = true) ∧
    getCurrentConfig ["-q", "-vv"] = { verbosity := some "more-verbose" } := by
  refine ⟨?_, ?_, ?_, ?_, ?_, ?_, ?_, rfl⟩
  · intro l1 l2 tok v htok hl2
    rw [getCurrentConfig, List.foldl_append, List.foldl_cons,
      foldl_keeps_verbosity l2 _ hl2]
    exact decodeStep_sets_verbosity _ _ _ htok
  · intro l1 l2 s hl2
    rw [getCurrentConfig, List.foldl_append, List.foldl_cons,
      foldl_keeps_tb l2 _ hl2, decodeStep_tb]
  · intro l1 l2 s hl2
    rw [getCurrentConfig, List.foldl_append, List.foldl_cons,
      foldl_keeps_numprocesses l2 _ hl2, decodeStep_numprocesses]
  · intro l1 l2 s hl2
    rw [getCurrentConfig, List.foldl_append, List.foldl_cons,
      foldl_keeps_browser l2 _ hl2, decodeStep_browser]
  · intro l1 l2 s hl2
    rw [getCurrentConfig, List.foldl_append, List.foldl_cons,
      foldl_keeps_tracing l2 _ hl2, decodeStep_tracing]
  · intro l1 l2 s hl2
    rw [getCurrentConfig, List.foldl_append, List.foldl_cons,
      foldl_keeps_video l2 _ hl2, decodeStep_video]
  · intro l1 l2
    refine ⟨?_, ?_, ?_, ?_, ?_⟩
    · rw [getCurrentConfig, foldl_captureOutput]
      simp
    · rw [getCurrentConfig, foldl_showlocals]
      simp
    · rw [getCurrentConfig, foldl_headed]
      simp
    · rw [getCurrentConfig, foldl_slowmo]
      simp
    · rw [getCurrentConfig, foldl_delve]
      simp

/-- Concrete instances of the last-match-wins theorem: the conflicting
pair quiet then more-verbose, and a traceback token overriding an earlier
one. -/
theorem decode_last_match_wins_witness :
    (getCurrentConfig (["-q"] ++ "-vv" :: [])).verbosity = some "more-verbose" ∧
      (getCurrentConfig (["--tb=long"] ++ ("--tb=" ++ "short") :: [])).tb =
        some (eqFreeHead "short") :=
  ⟨decode_last_match_wins.1 ["-q"] [] "-vv" "more-verbose" rfl (by simp),
    decode_last_match_wins.2.1 ["--tb=long"] [] "short" (by simp)⟩

theorem verbositySeg_unrecognized (s : String)
    (h : (s == "quiet" || s == "verbose" || s == "more-verbose" || s == "very-verbose") =
      false) : verbositySeg (some s) = [] := by
  simp only [Bool.or_eq_false_iff] at h
  obtain ⟨⟨⟨h1, h2⟩, h3⟩, h4⟩ := h
  by_cases he : s = ""
  · subst he
    rfl
  · have hne : (s != "") = true := by simp [he]
    simp only [verbositySeg, hne, h1, h2, h3, h4, Bool.false_eq_true, if_false, if_true]

/-- C10: a present verbosity value outside the four recognized levels is
silently dropped by the encoder, whose output is then the same as with
verbosity absent, so no verbosity flag is emitted at all; by contrast the
tb, browser, tracing and video fields pass any value other than the empty
string and the "none" sentinel through into their token unvalidated. -/
theorem encode_drops_unrecognized_verbosity :
    (∀ (c : PytestConfig) (s : String), c.verbosity = some s →
      (s == "quiet" || s == "verbose" || s == "more-verbose" || s == "very-verbose") =
        false →
      updateWorkspaceConfig c = updateWorkspaceConfig { c with verbosity := none }) ∧
    (∀ s : String,
      (s == "quiet" || s == "verbose" || s == "more-verbose" || s == "very-verbose") =
        false →
      verbositySeg (some s) = []) ∧
    (∀ s : String, s ≠ "" → s ≠ "none" →
      tbSeg (some s) = ["--tb=" ++ s] ∧ browserSeg (some s) = ["--browser=" ++ s] ∧
        tracingSeg (some s) = ["--tracing=" ++ s] ∧ videoSeg (some s) = ["--video=" ++ s]) := by
  refine ⟨?_, verbositySeg_unrecognized, ?_⟩
  · intro c s hc h
    rw [encode_segs, encode_segs, hc, verbositySeg_unrecognized s h]
    rfl
  · intro s h1 h2
    have hb1 : (s != "") = true := by simp [h1]
    have hb2 : (s != "none") = true := by simp [h2]
    refine ⟨?_, ?_, ?_, ?_⟩ <;>
      simp only [tbSeg, browserSeg, tracingSeg, videoSeg, hb1, hb2, Bool.and_self,
        if_true]

/-- Concrete instance of the unrecognized-verbosity theorem at the foreign
value "banana", together with a pass-through instance for tb. -/
theorem encode_drops_unrecognized_verbosity_witness :
    updateWorkspaceConfig { verbosity := some "banana", captureOutput := true } =
        updateWorkspaceConfig
          { ({ verbosity := some "banana", captureOutput := true } : PytestConfig) with
            verbosity := none } ∧
      verbositySeg (some "banana") = [] ∧
      tbSeg (some "short") = ["--tb=" ++ "short"] :=
  ⟨encode_drops_unrecognized_verbosity.1 _ "banana" rfl rfl,
    encode_drops_unrecognized_verbosity.2.1 "banana" rfl,
    (encode_drops_unrecognized_verbosity.2.2 "short" (by decide) (by decide)).1⟩
